import Mathlib

/-!
Verification development for the OTA alert system's core analysis component
(`src/analysis.py`, with configuration defaults from `config.py` and the
insert behaviour of `database.py`).

Modelling conventions:
* Weekly counters (`appearance_in_search`, `total_listing_views`, `bookings`)
  are nonnegative integers, embedded as `Nat`; `week_start` is embedded as a
  `Nat` ordering key (calendar dates are totally ordered).
* Python float arithmetic on the derived rates is embedded over `ℚ`: every
  quantity involved is a ratio of machine integers, and the rule comparisons
  are order comparisons of such ratios.  The literals `0.5`, `0.01`, `-30.0`
  become the exact rationals `1/2`, `1/100`, `-30`.
* The display rounding the source applies when materialising the alert record
  (`round(x, 4)`, `round(x, 1)`) is elided: no rule reads the rounded values.
* The issue strings appended by the source are represented by which rule
  produced them (the textual payload is formatted display data).
-/

/-- One row of `raw_listing_performance` as consumed by `analyze_listing`:
the weekly counters for one listing. -/
structure Rec where
  week_start : Nat
  appearance_in_search : Nat
  total_listing_views : Nat
  bookings : Nat
deriving DecidableEq, Inhabited

/-- The alert-threshold portion of `config.Config` used by the analyzer. -/
structure Config where
  CRITICAL_THRESHOLD : Nat
  HIGH_THRESHOLD : Nat
  MEDIUM_THRESHOLD : Nat
  LOW_THRESHOLD : Nat
  MIN_APPEARANCES_FOR_HIGH_ALERT : Nat
  VIEW_RATE_DROP_THRESHOLD : ℚ
  CONVERSION_RATE_DROP_THRESHOLD : ℚ
  WOW_DECLINE_THRESHOLD : ℚ
deriving DecidableEq

/-- Default values of the thresholds in `config.py`. -/
def defaultConfig : Config :=
  { CRITICAL_THRESHOLD := 100
    HIGH_THRESHOLD := 75
    MEDIUM_THRESHOLD := 50
    LOW_THRESHOLD := 25
    MIN_APPEARANCES_FOR_HIGH_ALERT := 50
    VIEW_RATE_DROP_THRESHOLD := 1/2
    CONVERSION_RATE_DROP_THRESHOLD := 1/2
    WOW_DECLINE_THRESHOLD := -30 }

/-- The four severity tiers, written as strings in the source. -/
inductive SeverityLevel where
  | CRITICAL
  | HIGH
  | MEDIUM
  | LOW
deriving DecidableEq

/-- Identifies which of the five rules produced a finding; stands for the
formatted issue string the source appends. -/
inductive RuleId where
  | zeroAppearances
  | noBookingsHighVisibility
  | viewRateCollapse
  | conversionRateCollapse
  | wowDecline
deriving DecidableEq

/-- The alert record returned by `analyze_listing` (rate fields unrounded,
see the module comment). -/
structure Alert where
  id_listing : Nat
  alert_date : Nat
  severity_score : Nat
  severity_level : SeverityLevel
  issues : List RuleId
  latest_appearances : Nat
  latest_views : Nat
  latest_bookings : Nat
  latest_view_rate : ℚ
  latest_conversion_rate : ℚ
  avg_appearances : ℚ
  avg_bookings : ℚ
  wow_change_pct : ℚ
deriving DecidableEq

/-- Stable insertion of a record into a list sorted ascending by
`week_start`. -/
def insertByWeek (r : Rec) : List Rec → List Rec
  | [] => [r]
  | x :: xs =>
      if r.week_start ≤ x.week_start then r :: x :: xs else x :: insertByWeek r xs

/-- Embeds `history.sort_values('week_start')`: a sort ascending by
`week_start`.  The pipeline's data invariant is at most one record per
(listing, week_start), on which every correct sort agrees. -/
def sortByWeek : List Rec → List Rec
  | [] => []
  | x :: xs => insertByWeek x (sortByWeek xs)

/-- Embeds `history.iloc[-1]` after the sort: the latest record. -/
def latestOf (history : List Rec) : Rec :=
  (sortByWeek history).getLastD default

/-- Embeds `history.iloc[-2]` after the sort: the record immediately
preceding the latest. -/
def previousOf (history : List Rec) : Rec :=
  (sortByWeek history).dropLast.getLastD default

/-- Embeds `historical = history.iloc[:-1]` after the sort: every record but
the latest. -/
def historicalOf (history : List Rec) : List Rec :=
  (sortByWeek history).dropLast

/-- Arithmetic mean of a list of rationals, embedding pandas `.mean()` on a
nonempty column. -/
def ratMean (l : List ℚ) : ℚ := l.sum / l.length

/-- Embeds `latest['total_listing_views'] / max(latest['appearance_in_search'], 1)`. -/
def latestViewRate (latest : Rec) : ℚ :=
  (latest.total_listing_views : ℚ) / ((max latest.appearance_in_search 1 : Nat) : ℚ)

/-- Embeds `latest['bookings'] / max(latest['total_listing_views'], 1)`. -/
def latestConversion (latest : Rec) : ℚ :=
  (latest.bookings : ℚ) / ((max latest.total_listing_views 1 : Nat) : ℚ)

/-- Embeds `historical['total_listing_views'].sum() / max(historical['appearance_in_search'].sum(), 1)`. -/
def avgViewRate (historical : List Rec) : ℚ :=
  ((historical.map (·.total_listing_views)).sum : ℚ) /
    ((max (historical.map (·.appearance_in_search)).sum 1 : Nat) : ℚ)

/-- Embeds `historical['bookings'].sum() / max(historical['total_listing_views'].sum(), 1)`. -/
def avgConversion (historical : List Rec) : ℚ :=
  ((historical.map (·.bookings)).sum : ℚ) /
    ((max (historical.map (·.total_listing_views)).sum 1 : Nat) : ℚ)

/-- Embeds `((latest - previous) / max(previous, 1)) * 100` on
`appearance_in_search`. -/
def wowChange (latest previous : Rec) : ℚ :=
  (((latest.appearance_in_search : ℤ) - (previous.appearance_in_search : ℤ) : ℤ) : ℚ) /
    ((max previous.appearance_in_search 1 : Nat) : ℚ) * 100

/-- CRITICAL rule condition: `latest['appearance_in_search'] == 0`. -/
def critTrig (latest : Rec) : Bool :=
  latest.appearance_in_search == 0

/-- HIGH rule condition: `latest['appearance_in_search'] > MIN_APPEARANCES_FOR_HIGH_ALERT and latest['bookings'] == 0`. -/
def highTrig (cfg : Config) (latest : Rec) : Bool :=
  decide (cfg.MIN_APPEARANCES_FOR_HIGH_ALERT < latest.appearance_in_search) &&
    (latest.bookings == 0)

/-- MEDIUM view-rate rule condition:
`latest_view_rate < avg_view_rate * VIEW_RATE_DROP_THRESHOLD and avg_view_rate > 0.01`. -/
def med1Trig (cfg : Config) (latest : Rec) (historical : List Rec) : Bool :=
  decide (latestViewRate latest < avgViewRate historical * cfg.VIEW_RATE_DROP_THRESHOLD) &&
    decide ((1/100 : ℚ) < avgViewRate historical)

/-- MEDIUM conversion-rate rule condition:
`latest_conversion < avg_conversion * CONVERSION_RATE_DROP_THRESHOLD and avg_conversion > 0.01`. -/
def med2Trig (cfg : Config) (latest : Rec) (historical : List Rec) : Bool :=
  decide (latestConversion latest < avgConversion historical * cfg.CONVERSION_RATE_DROP_THRESHOLD) &&
    decide ((1/100 : ℚ) < avgConversion historical)

/-- LOW rule condition: `wow_change < WOW_DECLINE_THRESHOLD`. -/
def lowTrig (cfg : Config) (latest previous : Rec) : Bool :=
  decide (wowChange latest previous < cfg.WOW_DECLINE_THRESHOLD)

/-- The sequential score accumulation of `analyze_listing`, written with the
same left-to-right additions the source performs (`score = 0`, then
`score += ...` under each triggered rule). -/
def coreScore (cfg : Config) (latest previous : Rec) (historical : List Rec) : Nat :=
  (if critTrig latest then cfg.CRITICAL_THRESHOLD else 0) +
  (if highTrig cfg latest then cfg.HIGH_THRESHOLD else 0) +
  (if med1Trig cfg latest historical then cfg.MEDIUM_THRESHOLD else 0) +
  (if med2Trig cfg latest historical then cfg.MEDIUM_THRESHOLD else 0) +
  (if lowTrig cfg latest previous then cfg.LOW_THRESHOLD else 0)

/-- The sequential `issues.append(...)` accumulation, one tag per triggered
rule, in the source's fixed evaluation order. -/
def coreIssues (cfg : Config) (latest previous : Rec) (historical : List Rec) : List RuleId :=
  (if critTrig latest then [RuleId.zeroAppearances] else []) ++
  (if highTrig cfg latest then [RuleId.noBookingsHighVisibility] else []) ++
  (if med1Trig cfg latest historical then [RuleId.viewRateCollapse] else []) ++
  (if med2Trig cfg latest historical then [RuleId.conversionRateCollapse] else []) ++
  (if lowTrig cfg latest previous then [RuleId.wowDecline] else [])

/-- `severity_level` after the CRITICAL rule: starts at `'LOW'`, set to
`'CRITICAL'` when the rule fires. -/
def levelAfterCrit (latest : Rec) : SeverityLevel :=
  if critTrig latest then SeverityLevel.CRITICAL else SeverityLevel.LOW

/-- `severity_level` after the HIGH rule: upgraded to `'HIGH'` unless the
level so far is in `['CRITICAL']`. -/
def levelAfterHigh (cfg : Config) (latest : Rec) : SeverityLevel :=
  if highTrig cfg latest then
    (if levelAfterCrit latest == SeverityLevel.CRITICAL then levelAfterCrit latest
     else SeverityLevel.HIGH)
  else levelAfterCrit latest

/-- `severity_level` after the first MEDIUM rule: upgraded to `'MEDIUM'`
unless the level so far is in `['CRITICAL', 'HIGH']`. -/
def levelAfterMed1 (cfg : Config) (latest : Rec) (historical : List Rec) : SeverityLevel :=
  if med1Trig cfg latest historical then
    (if levelAfterHigh cfg latest == SeverityLevel.CRITICAL ||
        levelAfterHigh cfg latest == SeverityLevel.HIGH then levelAfterHigh cfg latest
     else SeverityLevel.MEDIUM)
  else levelAfterHigh cfg latest

/-- `severity_level` after the second MEDIUM rule (the LOW rule never writes
the level, so this is the final value). -/
def coreLevel (cfg : Config) (latest : Rec) (historical : List Rec) : SeverityLevel :=
  if med2Trig cfg latest historical then
    (if levelAfterMed1 cfg latest historical == SeverityLevel.CRITICAL ||
        levelAfterMed1 cfg latest historical == SeverityLevel.HIGH then
       levelAfterMed1 cfg latest historical
     else SeverityLevel.MEDIUM)
  else levelAfterMed1 cfg latest historical

/-- The body of `analyze_listing` past the length guard, on the extracted
latest/previous/historical rows: evaluates the five rules in order and
materialises the alert record, or returns `none` when the accumulated score
is zero (`if score == 0: return None`). -/
def analyzeCore (cfg : Config) (id_listing : Nat) (latest previous : Rec)
    (historical : List Rec) : Option Alert :=
  if coreScore cfg latest previous historical = 0 then none
  else some
    { id_listing := id_listing
      alert_date := latest.week_start
      severity_score := coreScore cfg latest previous historical
      severity_level := coreLevel cfg latest historical
      issues := coreIssues cfg latest previous historical
      latest_appearances := latest.appearance_in_search
      latest_views := latest.total_listing_views
      latest_bookings := latest.bookings
      latest_view_rate := latestViewRate latest
      latest_conversion_rate := latestConversion latest
      avg_appearances := ratMean (historical.map (fun r => (r.appearance_in_search : ℚ)))
      avg_bookings := ratMean (historical.map (fun r => (r.bookings : ℚ)))
      wow_change_pct := wowChange latest previous }

/-- Embeds `AlertAnalyzer.analyze_listing` on an already-fetched history:
returns `None` on fewer than 2 records, otherwise sorts by `week_start` and
evaluates the rules on latest/previous/historical. -/
def analyze_listing (cfg : Config) (id_listing : Nat) (history : List Rec) : Option Alert :=
  if history.length < 2 then none
  else analyzeCore cfg id_listing (latestOf history) (previousOf history) (historicalOf history)

/-- A store snapshot as `run_analysis` consumes it: the listing ids in
iteration order (`get_all_listings`) and each listing's fetched history
(`get_listing_history`). -/
structure Store where
  listings : List Nat
  history : Nat → List Rec

/-- Stable descending insertion by `severity_score`. -/
def insertByScore (a : Alert) : List Alert → List Alert
  | [] => [a]
  | x :: xs =>
      if x.severity_score < a.severity_score then a :: x :: xs else x :: insertByScore a xs

/-- Embeds `alerts_df.sort_values('severity_score', ascending=False)`.  The
source's default sort kind leaves the relative order of equal scores
implementation-defined; this embedding fixes a deterministic stable sort, and
no theorem below depends on the order of tied scores. -/
def sortByScoreDesc : List Alert → List Alert
  | [] => []
  | x :: xs => insertByScore x (sortByScoreDesc xs)

/-- Embeds `AlertAnalyzer.run_analysis`: analyze every listing in store
order, keep the non-`None` results, sort by `severity_score` descending. -/
def run_analysis (cfg : Config) (store : Store) : List Alert :=
  sortByScoreDesc
    (store.listings.filterMap (fun id => analyze_listing cfg id (store.history id)))

/-- Score weight each rule contributes when it fires, per the threshold
configuration. -/
def weightOf (cfg : Config) : RuleId → Nat
  | RuleId.zeroAppearances => cfg.CRITICAL_THRESHOLD
  | RuleId.noBookingsHighVisibility => cfg.HIGH_THRESHOLD
  | RuleId.viewRateCollapse => cfg.MEDIUM_THRESHOLD
  | RuleId.conversionRateCollapse => cfg.MEDIUM_THRESHOLD
  | RuleId.wowDecline => cfg.LOW_THRESHOLD

/-- Severity tier of each rule ("tier if highest triggered" column of the
rule table). -/
def tierOf : RuleId → SeverityLevel
  | RuleId.zeroAppearances => SeverityLevel.CRITICAL
  | RuleId.noBookingsHighVisibility => SeverityLevel.HIGH
  | RuleId.viewRateCollapse => SeverityLevel.MEDIUM
  | RuleId.conversionRateCollapse => SeverityLevel.MEDIUM
  | RuleId.wowDecline => SeverityLevel.LOW

/-- Numeric rank of the strict tier ordering CRITICAL > HIGH > MEDIUM > LOW. -/
def levelRank : SeverityLevel → Nat
  | SeverityLevel.CRITICAL => 4
  | SeverityLevel.HIGH => 3
  | SeverityLevel.MEDIUM => 2
  | SeverityLevel.LOW => 1

/-- Maximum of two tiers under the rank ordering. -/
def lmax (a b : SeverityLevel) : SeverityLevel :=
  if levelRank a < levelRank b then b else a

/-- Maximum tier of a list, defaulting to LOW. -/
def levelMax (l : List SeverityLevel) : SeverityLevel :=
  l.foldr lmax SeverityLevel.LOW

lemma lmax_right_comm (a b c : SeverityLevel) : lmax a (lmax b c) = lmax b (lmax a c) := by
  cases a <;> cases b <;> cases c <;> rfl

lemma levelMax_perm {l1 l2 : List SeverityLevel} (h : l1.Perm l2) :
    levelMax l1 = levelMax l2 := by
  induction h with
  | nil => rfl
  | cons x _ ih => simp only [levelMax, List.foldr_cons] at *; rw [ih]
  | swap x y l => exact lmax_right_comm y x (List.foldr lmax SeverityLevel.LOW l)
  | trans _ _ ih1 ih2 => exact ih1.trans ih2

lemma coreScore_eq_sum (cfg : Config) (latest previous : Rec) (historical : List Rec) :
    coreScore cfg latest previous historical =
      ((coreIssues cfg latest previous historical).map (weightOf cfg)).sum := by
  unfold coreScore coreIssues
  cases h1 : critTrig latest <;> cases h2 : highTrig cfg latest <;>
    cases h3 : med1Trig cfg latest historical <;> cases h4 : med2Trig cfg latest historical <;>
    cases h5 : lowTrig cfg latest previous <;> simp [weightOf] <;> omega

lemma coreScore_zero_iff_issues_nil (cfg : Config) (latest previous : Rec)
    (historical : List Rec) (hc : 0 < cfg.CRITICAL_THRESHOLD) (hh : 0 < cfg.HIGH_THRESHOLD)
    (hm : 0 < cfg.MEDIUM_THRESHOLD) (hl : 0 < cfg.LOW_THRESHOLD) :
    (coreScore cfg latest previous historical = 0 ↔
      coreIssues cfg latest previous historical = []) := by
  unfold coreScore coreIssues
  cases h1 : critTrig latest <;> cases h2 : highTrig cfg latest <;>
    cases h3 : med1Trig cfg latest historical <;> cases h4 : med2Trig cfg latest historical <;>
    cases h5 : lowTrig cfg latest previous <;> simp <;> omega

lemma coreLevel_eq_levelMax (cfg : Config) (latest previous : Rec) (historical : List Rec) :
    coreLevel cfg latest historical =
      levelMax ((coreIssues cfg latest previous historical).map tierOf) := by
  unfold coreLevel levelAfterMed1 levelAfterHigh levelAfterCrit coreIssues
  cases h1 : critTrig latest <;> cases h2 : highTrig cfg latest <;>
    cases h3 : med1Trig cfg latest historical <;> cases h4 : med2Trig cfg latest historical <;>
    cases h5 : lowTrig cfg latest previous <;>
      simp [levelMax, lmax, tierOf, levelRank]

lemma level_never_downgrades (cfg : Config) (latest : Rec) (historical : List Rec) :
    levelRank (levelAfterCrit latest) ≤ levelRank (levelAfterHigh cfg latest) ∧
    levelRank (levelAfterHigh cfg latest) ≤ levelRank (levelAfterMed1 cfg latest historical) ∧
    levelRank (levelAfterMed1 cfg latest historical) ≤
      levelRank (coreLevel cfg latest historical) := by
  unfold coreLevel levelAfterMed1 levelAfterHigh levelAfterCrit
  cases h1 : critTrig latest <;> cases h2 : highTrig cfg latest <;>
    cases h3 : med1Trig cfg latest historical <;> cases h4 : med2Trig cfg latest historical <;>
      simp [levelRank]

lemma analyze_listing_eq_core (cfg : Config) (id : Nat) (history : List Rec)
    (h : 2 ≤ history.length) :
    analyze_listing cfg id history =
      analyzeCore cfg id (latestOf history) (previousOf history) (historicalOf history) := by
  unfold analyze_listing
  rw [if_neg]
  omega

/-- Concrete history: steady visibility, then a latest week with bookings at
zero and collapsed view and conversion rates (triggers HIGH and both MEDIUM
rules, neither CRITICAL nor LOW). -/
def c3HistA : List Rec :=
  [⟨1, 100, 50, 10⟩, ⟨2, 100, 50, 10⟩, ⟨3, 100, 10, 0⟩]

/-- Concrete history whose only finding is CRITICAL: the latest week has zero
appearances, and the remaining metrics keep every other rule quiet. -/
def c3HistB : List Rec :=
  [⟨1, 100, 50, 10⟩, ⟨2, 0, 1, 1⟩, ⟨3, 0, 1, 1⟩]

/-- C1: for every history with at least 2 records (and positive configured
score weights, as in the default configuration), `analyze_listing` returns an
alert iff at least one of the five rules triggers; the alert's
`severity_score` equals the sum of the configured weights of exactly the
triggered rules, and is positive — a zero-score alert is never produced. -/
theorem c1_alert_iff_rule_triggers (cfg : Config) (id : Nat) (history : List Rec)
    (hc : 0 < cfg.CRITICAL_THRESHOLD) (hh : 0 < cfg.HIGH_THRESHOLD)
    (hm : 0 < cfg.MEDIUM_THRESHOLD) (hl : 0 < cfg.LOW_THRESHOLD)
    (hlen : 2 ≤ history.length) :
    ((analyze_listing cfg id history).isSome = true ↔
        coreIssues cfg (latestOf history) (previousOf history) (historicalOf history) ≠ []) ∧
    (∀ a, analyze_listing cfg id history = some a →
        a.severity_score =
          ((coreIssues cfg (latestOf history) (previousOf history) (historicalOf history)).map
            (weightOf cfg)).sum ∧ 0 < a.severity_score) := by
  rw [analyze_listing_eq_core cfg id history hlen]
  unfold analyzeCore
  by_cases h : coreScore cfg (latestOf history) (previousOf history) (historicalOf history) = 0
  · rw [if_pos h]
    constructor
    · constructor
      · intro hs
        simp at hs
      · intro hne
        exact absurd
          ((coreScore_zero_iff_issues_nil cfg (latestOf history) (previousOf history)
            (historicalOf history) hc hh hm hl).mp h) hne
    · intro a ha
      simp at ha
  · rw [if_neg h]
    constructor
    · constructor
      · intro _
        intro hnil
        exact h ((coreScore_zero_iff_issues_nil cfg (latestOf history) (previousOf history)
          (historicalOf history) hc hh hm hl).mpr hnil)
      · intro _
        simp
    · intro a ha
      have hEq := Option.some.inj ha
      subst hEq
      exact ⟨coreScore_eq_sum cfg (latestOf history) (previousOf history) (historicalOf history),
        Nat.pos_of_ne_zero h⟩

/-- Witness for C1 at the default configuration on a concrete history. -/
theorem c1_alert_iff_rule_triggers_witness :
    (0 < defaultConfig.CRITICAL_THRESHOLD ∧ 0 < defaultConfig.HIGH_THRESHOLD ∧
     0 < defaultConfig.MEDIUM_THRESHOLD ∧ 0 < defaultConfig.LOW_THRESHOLD ∧
     2 ≤ c3HistA.length) ∧
    (((analyze_listing defaultConfig 1 c3HistA).isSome = true ↔
        coreIssues defaultConfig (latestOf c3HistA) (previousOf c3HistA) (historicalOf c3HistA) ≠ []) ∧
     (∀ a, analyze_listing defaultConfig 1 c3HistA = some a →
        a.severity_score =
          ((coreIssues defaultConfig (latestOf c3HistA) (previousOf c3HistA)
            (historicalOf c3HistA)).map (weightOf defaultConfig)).sum ∧ 0 < a.severity_score)) :=
  ⟨⟨by decide, by decide, by decide, by decide, by decide⟩,
   c1_alert_iff_rule_triggers defaultConfig 1 c3HistA
     (by decide) (by decide) (by decide) (by decide) (by decide)⟩

/-- C2: for every history with at least 2 records, any returned alert's
`severity_level` equals the maximum tier (CRITICAL > HIGH > MEDIUM > LOW)
over the tiers of all triggered rules; that maximum is invariant under any
reordering of the triggered-rule list, and the engine's sequential level
updates only ever upgrade, never downgrade, the level. -/
theorem c2_level_is_max_triggered_tier (cfg : Config) (id : Nat) (history : List Rec)
    (hlen : 2 ≤ history.length) :
    (∀ a, analyze_listing cfg id history = some a →
        a.severity_level =
          levelMax ((coreIssues cfg (latestOf history) (previousOf history)
            (historicalOf history)).map tierOf)) ∧
    (∀ l : List SeverityLevel,
        ((coreIssues cfg (latestOf history) (previousOf history)
            (historicalOf history)).map tierOf).Perm l →
        levelMax l =
          levelMax ((coreIssues cfg (latestOf history) (previousOf history)
            (historicalOf history)).map tierOf)) ∧
    (levelRank (levelAfterCrit (latestOf history)) ≤
        levelRank (levelAfterHigh cfg (latestOf history)) ∧
     levelRank (levelAfterHigh cfg (latestOf history)) ≤
        levelRank (levelAfterMed1 cfg (latestOf history) (historicalOf history)) ∧
     levelRank (levelAfterMed1 cfg (latestOf history) (historicalOf history)) ≤
        levelRank (coreLevel cfg (latestOf history) (historicalOf history))) := by
  refine ⟨?_, ?_, level_never_downgrades cfg (latestOf history) (historicalOf history)⟩
  · intro a ha
    rw [analyze_listing_eq_core cfg id history hlen] at ha
    unfold analyzeCore at ha
    by_cases h : coreScore cfg (latestOf history) (previousOf history) (historicalOf history) = 0
    · rw [if_pos h] at ha
      simp at ha
    · rw [if_neg h] at ha
      have hEq := Option.some.inj ha
      subst hEq
      exact coreLevel_eq_levelMax cfg (latestOf history) (previousOf history) (historicalOf history)
  · intro l hp
    exact (levelMax_perm hp).symm

/-- Witness for C2 on a concrete history that triggers HIGH and both MEDIUM
rules. -/
theorem c2_level_is_max_triggered_tier_witness :
    (2 ≤ c3HistA.length) ∧
    ((∀ a, analyze_listing defaultConfig 3 c3HistA = some a →
        a.severity_level =
          levelMax ((coreIssues defaultConfig (latestOf c3HistA) (previousOf c3HistA)
            (historicalOf c3HistA)).map tierOf)) ∧
     (∀ l : List SeverityLevel,
        ((coreIssues defaultConfig (latestOf c3HistA) (previousOf c3HistA)
            (historicalOf c3HistA)).map tierOf).Perm l →
        levelMax l =
          levelMax ((coreIssues defaultConfig (latestOf c3HistA) (previousOf c3HistA)
            (historicalOf c3HistA)).map tierOf)) ∧
     (levelRank (levelAfterCrit (latestOf c3HistA)) ≤
        levelRank (levelAfterHigh defaultConfig (latestOf c3HistA)) ∧
      levelRank (levelAfterHigh defaultConfig (latestOf c3HistA)) ≤
        levelRank (levelAfterMed1 defaultConfig (latestOf c3HistA) (historicalOf c3HistA)) ∧
      levelRank (levelAfterMed1 defaultConfig (latestOf c3HistA) (historicalOf c3HistA)) ≤
        levelRank (coreLevel defaultConfig (latestOf c3HistA) (historicalOf c3HistA)))) :=
  ⟨by decide, c2_level_is_max_triggered_tier defaultConfig 3 c3HistA (by decide)⟩

/-- C5: a history with fewer than 2 weekly records (including the empty
history) makes `analyze_listing` return `None`, as an ordinary success value
of the function. -/
theorem c5_short_history_returns_none (cfg : Config) (id : Nat) (history : List Rec)
    (h : history.length < 2) : analyze_listing cfg id history = none := by
  unfold analyze_listing
  rw [if_pos h]

/-- Witness for C5 on a one-record history. -/
theorem c5_short_history_returns_none_witness :
    ([⟨1, 5, 3, 1⟩] : List Rec).length < 2 ∧
    analyze_listing defaultConfig 2 [⟨1, 5, 3, 1⟩] = none :=
  ⟨by decide, c5_short_history_returns_none defaultConfig 2 [⟨1, 5, 3, 1⟩] (by decide)⟩

/-- Store with the two listings above, in the iteration order listing 1 then
listing 2. -/
def c3Store : Store :=
  { listings := [1, 2]
    history := fun id => if id = 1 then c3HistA else if id = 2 then c3HistB else [] }

/-- C3: with default thresholds, a history triggering the no-bookings HIGH
rule and both MEDIUM collapse rules (but neither CRITICAL nor LOW) yields
severity_score 75+50+50 = 175 with severity_level HIGH, and `run_analysis`
ranks it above a listing whose only finding is CRITICAL with score 100, even
though the CRITICAL tier outranks HIGH — score order does not follow level
order. -/
theorem c3_score_level_divergence :
    ((analyze_listing defaultConfig 1 c3HistA).map
        (fun a => (a.severity_score, a.severity_level, a.issues)) =
      some (175, SeverityLevel.HIGH,
        [RuleId.noBookingsHighVisibility, RuleId.viewRateCollapse,
         RuleId.conversionRateCollapse])) ∧
    ((analyze_listing defaultConfig 2 c3HistB).map
        (fun a => (a.severity_score, a.severity_level, a.issues)) =
      some (100, SeverityLevel.CRITICAL, [RuleId.zeroAppearances])) ∧
    ((run_analysis defaultConfig c3Store).map
        (fun a => (a.id_listing, a.severity_score, a.severity_level)) =
      [(1, 175, SeverityLevel.HIGH), (2, 100, SeverityLevel.CRITICAL)]) ∧
    75 + 50 + 50 = 175 ∧
    levelRank SeverityLevel.HIGH < levelRank SeverityLevel.CRITICAL := by
  refine ⟨?_, ?_, ?_, by decide, by decide⟩ <;>
    simp [run_analysis, c3Store, sortByScoreDesc, insertByScore, analyze_listing,
      analyzeCore, coreScore, coreIssues, coreLevel, levelAfterMed1,
      levelAfterHigh, levelAfterCrit, critTrig, highTrig, med1Trig, med2Trig, lowTrig,
      latestViewRate, latestConversion, avgViewRate, avgConversion, wowChange,
      latestOf, previousOf, historicalOf, sortByWeek, insertByWeek, ratMean,
      c3HistA, c3HistB, defaultConfig] <;>
    norm_num

/-- Spec formula: `latest.views / max(latest.appearances, 1)` where `latest`
is the most recent record in `week_start` order. -/
def specLatestViewRate (history : List Rec) : ℚ :=
  ((latestOf history).total_listing_views : ℚ) /
    ((max (latestOf history).appearance_in_search 1 : Nat) : ℚ)

/-- Spec formula: `latest.bookings / max(latest.views, 1)`. -/
def specLatestConversionRate (history : List Rec) : ℚ :=
  ((latestOf history).bookings : ℚ) /
    ((max (latestOf history).total_listing_views 1 : Nat) : ℚ)

/-- Spec formula: pooled `sum(historical.views) / max(sum(historical.appearances), 1)`
over the records excluding the latest. -/
def specAvgViewRate (history : List Rec) : ℚ :=
  (((historicalOf history).map (·.total_listing_views)).sum : ℚ) /
    ((max ((historicalOf history).map (·.appearance_in_search)).sum 1 : Nat) : ℚ)

/-- Spec formula: pooled `sum(historical.bookings) / max(sum(historical.views), 1)`. -/
def specAvgConversionRate (history : List Rec) : ℚ :=
  (((historicalOf history).map (·.bookings)).sum : ℚ) /
    ((max ((historicalOf history).map (·.total_listing_views)).sum 1 : Nat) : ℚ)

/-- Spec formula:
`(latest.appearances - previous.appearances) / max(previous.appearances, 1) * 100`
where `previous` immediately precedes `latest` in `week_start` order. -/
def specWowChangePct (history : List Rec) : ℚ :=
  ((((latestOf history).appearance_in_search : ℤ) -
      ((previousOf history).appearance_in_search : ℤ) : ℤ) : ℚ) /
    ((max (previousOf history).appearance_in_search 1 : Nat) : ℚ) * 100

/-- The alternative the spec rules out: arithmetic mean of the per-week view
ratios. -/
def meanOfViewRateRatios (historical : List Rec) : ℚ :=
  ratMean (historical.map
    (fun r => (r.total_listing_views : ℚ) / ((max r.appearance_in_search 1 : Nat) : ℚ)))

/-- Concrete history on which the pooled ratio and the mean of per-week
ratios disagree. -/
def c4PooledDemo : List Rec := [⟨1, 10, 1, 0⟩, ⟨2, 1000, 500, 0⟩, ⟨3, 1, 1, 0⟩]

/-- C4: the derived quantities feeding the rules are computed exactly as the
spec's formulas state — latest rates over `max(·, 1)` denominators, pooled
(not mean-of-ratios) historical averages, and the week-over-week change
against the record immediately preceding the latest — and the pooled ratio
genuinely differs from the mean of per-week ratios on a concrete history. -/
theorem c4_derived_quantities_formulas (cfg : Config) (id : Nat) (history : List Rec)
    (hlen : 2 ≤ history.length) :
    latestViewRate (latestOf history) = specLatestViewRate history ∧
    latestConversion (latestOf history) = specLatestConversionRate history ∧
    avgViewRate (historicalOf history) = specAvgViewRate history ∧
    avgConversion (historicalOf history) = specAvgConversionRate history ∧
    wowChange (latestOf history) (previousOf history) = specWowChangePct history ∧
    (∀ a, analyze_listing cfg id history = some a →
        a.latest_view_rate = specLatestViewRate history ∧
        a.latest_conversion_rate = specLatestConversionRate history ∧
        a.wow_change_pct = specWowChangePct history) ∧
    avgViewRate (historicalOf c4PooledDemo) ≠ meanOfViewRateRatios (historicalOf c4PooledDemo) := by
  refine ⟨rfl, rfl, rfl, rfl, rfl, ?_, ?_⟩
  · intro a ha
    rw [analyze_listing_eq_core cfg id history hlen] at ha
    unfold analyzeCore at ha
    by_cases h : coreScore cfg (latestOf history) (previousOf history) (historicalOf history) = 0
    · rw [if_pos h] at ha
      simp at ha
    · rw [if_neg h] at ha
      have hEq := Option.some.inj ha
      subst hEq
      exact ⟨rfl, rfl, rfl⟩
  · simp [c4PooledDemo, historicalOf, sortByWeek, insertByWeek, avgViewRate,
      meanOfViewRateRatios, ratMean]
    norm_num

/-- Witness for C4 on a concrete history. -/
theorem c4_derived_quantities_formulas_witness :
    (2 ≤ c3HistA.length) ∧
    (latestViewRate (latestOf c3HistA) = specLatestViewRate c3HistA ∧
     latestConversion (latestOf c3HistA) = specLatestConversionRate c3HistA ∧
     avgViewRate (historicalOf c3HistA) = specAvgViewRate c3HistA ∧
     avgConversion (historicalOf c3HistA) = specAvgConversionRate c3HistA ∧
     wowChange (latestOf c3HistA) (previousOf c3HistA) = specWowChangePct c3HistA ∧
     (∀ a, analyze_listing defaultConfig 4 c3HistA = some a →
        a.latest_view_rate = specLatestViewRate c3HistA ∧
        a.latest_conversion_rate = specLatestConversionRate c3HistA ∧
        a.wow_change_pct = specWowChangePct c3HistA) ∧
     avgViewRate (historicalOf c4PooledDemo) ≠ meanOfViewRateRatios (historicalOf c4PooledDemo)) :=
  ⟨by decide, c4_derived_quantities_formulas defaultConfig 4 c3HistA (by decide)⟩

/-- The five divisor expressions of the rate and week-over-week computations,
each guarded by `max(·, 1)` in the source. -/
def ruleDenominators (history : List Rec) : List Nat :=
  [max (latestOf history).appearance_in_search 1,
   max (latestOf history).total_listing_views 1,
   max ((historicalOf history).map (·.appearance_in_search)).sum 1,
   max ((historicalOf history).map (·.total_listing_views)).sum 1,
   max (previousOf history).appearance_in_search 1]

lemma insertByWeek_length (r : Rec) (l : List Rec) :
    (insertByWeek r l).length = l.length + 1 := by
  induction l with
  | nil => rfl
  | cons x xs ih =>
      unfold insertByWeek
      by_cases h : r.week_start ≤ x.week_start
      · rw [if_pos h]
        simp
      · rw [if_neg h]
        simp [ih]

lemma sortByWeek_length (l : List Rec) : (sortByWeek l).length = l.length := by
  induction l with
  | nil => rfl
  | cons x xs ih =>
      unfold sortByWeek
      rw [insertByWeek_length, ih]
      rfl

/-- History whose counters are all zero in both weeks. -/
def allZeroHistory : List Rec := [⟨1, 0, 0, 0⟩, ⟨2, 0, 0, 0⟩]

/-- C10: every division performed by the rule computations has a denominator
guarded by `max(·, 1)` — hence at least 1 and nonzero as a rational — the
historical window feeding the means is nonempty, and the all-zero history
still evaluates, to a CRITICAL alert, rather than failing. -/
theorem c10_division_guards (history : List Rec) (hlen : 2 ≤ history.length) :
    (∀ d ∈ ruleDenominators history, 1 ≤ d) ∧
    (∀ d ∈ ruleDenominators history, ((d : Nat) : ℚ) ≠ 0) ∧
    1 ≤ (historicalOf history).length ∧
    ((analyze_listing defaultConfig 0 allZeroHistory).map
        (fun a => (a.severity_score, a.severity_level, a.issues)) =
      some (100, SeverityLevel.CRITICAL, [RuleId.zeroAppearances])) := by
  refine ⟨?_, ?_, ?_, ?_⟩
  · intro d hd
    simp [ruleDenominators] at hd
    rcases hd with h | h | h | h | h <;> omega
  · intro d hd
    have h1 : d ≠ 0 := by
      simp [ruleDenominators] at hd
      rcases hd with h | h | h | h | h <;> omega
    exact Nat.cast_ne_zero.mpr h1
  · rw [historicalOf, List.length_dropLast, sortByWeek_length]
    omega
  · simp [analyze_listing, analyzeCore, coreScore, coreIssues, coreLevel, levelAfterMed1,
      levelAfterHigh, levelAfterCrit, critTrig, highTrig, med1Trig, med2Trig, lowTrig,
      latestViewRate, latestConversion, avgViewRate, avgConversion, wowChange,
      latestOf, previousOf, historicalOf, sortByWeek, insertByWeek, ratMean,
      allZeroHistory, defaultConfig]

/-- Witness for C10 at the all-zero history. -/
theorem c10_division_guards_witness :
    (2 ≤ allZeroHistory.length) ∧
    ((∀ d ∈ ruleDenominators allZeroHistory, 1 ≤ d) ∧
     (∀ d ∈ ruleDenominators allZeroHistory, ((d : Nat) : ℚ) ≠ 0) ∧
     1 ≤ (historicalOf allZeroHistory).length ∧
     ((analyze_listing defaultConfig 0 allZeroHistory).map
        (fun a => (a.severity_score, a.severity_level, a.issues)) =
      some (100, SeverityLevel.CRITICAL, [RuleId.zeroAppearances]))) :=
  ⟨by decide, c10_division_guards allZeroHistory (by decide)⟩

/-- Outcome the external store gives the insert step: `ok` (all rows
inserted), `dupKey` (the driver raises a Duplicate entry error: the rows are
rolled back but `insert_dataframe` logs a warning instead of re-raising),
`fail` (any other exception). -/
inductive InsertOutcome where
  | ok
  | dupKey
  | fail
deriving DecidableEq

/-- Embeds `DatabaseManager.insert_dataframe(df, 'alerts', if_exists='append')`
as it acts on the alerts ledger: append the rows; on a duplicate-entry error
tolerate (state unchanged, no exception); on any other error propagate. -/
def insert_dataframe (table df : List Alert) : InsertOutcome → Except Unit (List Alert)
  | InsertOutcome.ok => Except.ok (table ++ df)
  | InsertOutcome.dupKey => Except.ok table
  | InsertOutcome.fail => Except.error ()

/-- Embeds `alerts_df['alert_date'].max()`. -/
def maxAlertDate (batch : List Alert) : Nat :=
  (batch.map (·.alert_date)).foldl max 0

/-- Embeds `alerts_df[alerts_df['alert_date'] == latest_week]`: the subset of
the batch belonging to the batch's most recent alert date. -/
def latestSubset (batch : List Alert) : List Alert :=
  batch.filter (fun a => a.alert_date == maxAlertDate batch)

/-- Listing ids the ledger already holds for the given alert date (the
existence query `SELECT id_listing FROM alerts WHERE alert_date = ...`). -/
def existingIdsFor (table : List Alert) (d : Nat) : List Nat :=
  (table.filter (fun r => r.alert_date == d)).map (·.id_listing)

/-- The latest-week subset with already-persisted listing ids filtered out
(`latest_alerts[~latest_alerts['id_listing'].isin(existing_listings)]`). -/
def newAlerts (table batch : List Alert) : List Alert :=
  (latestSubset batch).filter
    (fun a => !(existingIdsFor table (maxAlertDate batch)).contains a.id_listing)

/-- Embeds `AlertAnalyzer.save_alerts` over the ledger state: empty batch
returns immediately; with a successful existence lookup the latest-week
subset is deduplicated against the ledger (early return when nothing is new);
a failed lookup is swallowed and the full latest-week subset is inserted; the
final insert propagates its error (`raise`), duplicate-entry aside. -/
def save_alerts (table batch : List Alert) (lookupOk : Bool) (ins : InsertOutcome) :
    Except Unit (List Alert) :=
  if batch.length = 0 then Except.ok table
  else if lookupOk then
    if 0 < (table.filter (fun r => r.alert_date == maxAlertDate batch)).length then
      if (newAlerts table batch).length = 0 then Except.ok table
      else insert_dataframe table (newAlerts table batch) ins
    else insert_dataframe table (latestSubset batch) ins
  else insert_dataframe table (latestSubset batch) ins

lemma mem_latestSubset_date {batch : List Alert} {a : Alert} (h : a ∈ latestSubset batch) :
    a.alert_date = maxAlertDate batch := by
  unfold latestSubset at h
  simpa using (List.mem_filter.mp h).2

lemma newAlerts_eq_latestSubset_of_no_existing {table batch : List Alert}
    (h : table.filter (fun r => r.alert_date == maxAlertDate batch) = []) :
    newAlerts table batch = latestSubset batch := by
  unfold newAlerts existingIdsFor
  rw [h]
  apply List.filter_eq_self.mpr
  intro a _
  rfl

lemma save_alerts_ok_eq (table batch : List Alert) :
    save_alerts table batch true InsertOutcome.ok =
      Except.ok (table ++ newAlerts table batch) := by
  unfold save_alerts insert_dataframe
  by_cases hb : batch.length = 0
  · rw [if_pos hb]
    have hb' : batch = [] := List.length_eq_zero.mp hb
    subst hb'
    simp [newAlerts, latestSubset]
  · rw [if_neg hb]
    simp only [if_true]
    by_cases he : 0 < (table.filter (fun r => r.alert_date == maxAlertDate batch)).length
    · rw [if_pos he]
      by_cases hn : (newAlerts table batch).length = 0
      · rw [if_pos hn]
        rw [List.length_eq_zero.mp hn]
        simp
      · rw [if_neg hn]
    · rw [if_neg he]
      have hfe : table.filter (fun r => r.alert_date == maxAlertDate batch) = [] := by
        rcases Nat.eq_zero_or_pos (table.filter
          (fun r => r.alert_date == maxAlertDate batch)).length with h0 | hpos
        · exact List.length_eq_zero.mp h0
        · exact absurd hpos he
      rw [newAlerts_eq_latestSubset_of_no_existing hfe]

lemma mem_newAlerts_of_fresh {table batch : List Alert} {a : Alert}
    (ha : a ∈ latestSubset batch)
    (hfresh : a.id_listing ∉ existingIdsFor table (maxAlertDate batch)) :
    a ∈ newAlerts table batch := by
  unfold newAlerts
  apply List.mem_filter.mpr
  refine ⟨ha, ?_⟩
  simp [hfresh]

lemma id_mem_existing_of_mem_newAlerts {table batch : List Alert} {a : Alert}
    (ha : a ∈ newAlerts table batch) :
    a.id_listing ∈ existingIdsFor (newAlerts table batch) (maxAlertDate batch) := by
  unfold existingIdsFor
  apply List.mem_map.mpr
  refine ⟨a, ?_, rfl⟩
  apply List.mem_filter.mpr
  refine ⟨ha, ?_⟩
  have hdate : a.alert_date = maxAlertDate batch :=
    mem_latestSubset_date (List.mem_of_mem_filter ha)
  simp [hdate]

lemma existingIdsFor_append (t1 t2 : List Alert) (d : Nat) :
    existingIdsFor (t1 ++ t2) d = existingIdsFor t1 d ++ existingIdsFor t2 d := by
  unfold existingIdsFor
  rw [List.filter_append, List.map_append]

lemma newAlerts_append_nil (table batch : List Alert) :
    newAlerts (table ++ newAlerts table batch) batch = [] := by
  apply List.filter_eq_nil_iff.mpr
  intro a ha hcon
  have hnot : a.id_listing ∉ existingIdsFor (table ++ newAlerts table batch)
      (maxAlertDate batch) := by
    simpa using hcon
  apply hnot
  rw [existingIdsFor_append]
  by_cases hmem : a.id_listing ∈ existingIdsFor table (maxAlertDate batch)
  · exact List.mem_append_left _ hmem
  · exact List.mem_append_right _
      (id_mem_existing_of_mem_newAlerts (mem_newAlerts_of_fresh ha hmem))

/-- C7: `save_alerts` persists only the latest-week subset of the batch,
skips every listing id already recorded for that alert date, and a second
call with the identical batch is a no-op, so each new (listing_id,
alert_date) row ends up persisted exactly once. -/
theorem c7_save_alerts_dedup_idempotent (table batch : List Alert)
    (hnodup : ((latestSubset batch).map (·.id_listing)).Nodup) :
    save_alerts table batch true InsertOutcome.ok =
      Except.ok (table ++ newAlerts table batch) ∧
    save_alerts (table ++ newAlerts table batch) batch true InsertOutcome.ok =
      Except.ok (table ++ newAlerts table batch) ∧
    (∀ a ∈ newAlerts table batch,
        a ∈ latestSubset batch ∧ a.alert_date = maxAlertDate batch) ∧
    (∀ a ∈ latestSubset batch,
        a.id_listing ∈ existingIdsFor table (maxAlertDate batch) →
        a ∉ newAlerts table batch) ∧
    (∀ a ∈ latestSubset batch,
        a.id_listing ∉ existingIdsFor table (maxAlertDate batch) →
        ((table ++ newAlerts table batch).filter
          (fun r => r.id_listing == a.id_listing && r.alert_date == a.alert_date)).length = 1) := by
  refine ⟨save_alerts_ok_eq table batch, ?_, ?_, ?_, ?_⟩
  · rw [save_alerts_ok_eq (table ++ newAlerts table batch) batch, newAlerts_append_nil]
    simp
  · intro a ha
    exact ⟨List.mem_of_mem_filter ha, mem_latestSubset_date (List.mem_of_mem_filter ha)⟩
  · intro a _ hmem hN
    have hkeep := (List.mem_filter.mp hN).2
    simp at hkeep
    exact hkeep hmem
  · intro a ha hfresh
    rw [List.filter_append, List.length_append]
    have htable : table.filter
        (fun r => r.id_listing == a.id_listing && r.alert_date == a.alert_date) = [] := by
      apply List.filter_eq_nil_iff.mpr
      intro r hr hpred
      simp at hpred
      apply hfresh
      unfold existingIdsFor
      apply List.mem_map.mpr
      refine ⟨r, List.mem_filter.mpr ⟨hr, ?_⟩, hpred.1⟩
      simp [hpred.2, mem_latestSubset_date ha]
    rw [htable]
    simp only [List.length_nil, Nat.zero_add]
    have haN : a ∈ newAlerts table batch := mem_newAlerts_of_fresh ha hfresh
    have hNodupN : (newAlerts table batch).Nodup :=
      List.Nodup.filter _ (List.Nodup.of_map _ hnodup)
    have hcongr : (newAlerts table batch).filter
        (fun r => r.id_listing == a.id_listing && r.alert_date == a.alert_date) =
        (newAlerts table batch).filter (fun r => r == a) := by
      apply List.filter_congr
      intro r hr
      have hrLS : r ∈ latestSubset batch := List.mem_of_mem_filter hr
      by_cases heq : r = a
      · subst heq
        simp
      · have hid : r.id_listing ≠ a.id_listing := by
          intro hid
          exact heq (List.inj_on_of_nodup_map hnodup hrLS ha hid)
        rw [beq_eq_false_iff_ne.mpr hid, beq_eq_false_iff_ne.mpr heq, Bool.false_and]
    rw [hcongr]
    have hcount := List.count_eq_one_of_mem hNodupN haN
    calc ((newAlerts table batch).filter (fun r => r == a)).length
        = (newAlerts table batch).countP (fun r => r == a) :=
          (List.countP_eq_length_filter _ _).symm
      _ = List.count a (newAlerts table batch) := rfl
      _ = 1 := hcount

/-- A minimal alert row used to exercise the persistence model. -/
def wAlert (id d s : Nat) : Alert :=
  { id_listing := id, alert_date := d, severity_score := s,
    severity_level := SeverityLevel.LOW, issues := [RuleId.wowDecline],
    latest_appearances := 0, latest_views := 0, latest_bookings := 0,
    latest_view_rate := 0, latest_conversion_rate := 0,
    avg_appearances := 0, avg_bookings := 0, wow_change_pct := 0 }

/-- Witness for C7 on a concrete ledger and batch. -/
theorem c7_save_alerts_dedup_idempotent_witness :
    (((latestSubset [wAlert 1 7 100, wAlert 2 6 25]).map (·.id_listing)).Nodup) ∧
    (save_alerts [wAlert 9 7 50] [wAlert 1 7 100, wAlert 2 6 25] true InsertOutcome.ok =
      Except.ok ([wAlert 9 7 50] ++ newAlerts [wAlert 9 7 50] [wAlert 1 7 100, wAlert 2 6 25]) ∧
     save_alerts ([wAlert 9 7 50] ++ newAlerts [wAlert 9 7 50] [wAlert 1 7 100, wAlert 2 6 25])
        [wAlert 1 7 100, wAlert 2 6 25] true InsertOutcome.ok =
      Except.ok ([wAlert 9 7 50] ++ newAlerts [wAlert 9 7 50] [wAlert 1 7 100, wAlert 2 6 25]) ∧
     (∀ a ∈ newAlerts [wAlert 9 7 50] [wAlert 1 7 100, wAlert 2 6 25],
        a ∈ latestSubset [wAlert 1 7 100, wAlert 2 6 25] ∧
        a.alert_date = maxAlertDate [wAlert 1 7 100, wAlert 2 6 25]) ∧
     (∀ a ∈ latestSubset [wAlert 1 7 100, wAlert 2 6 25],
        a.id_listing ∈ existingIdsFor [wAlert 9 7 50] (maxAlertDate [wAlert 1 7 100, wAlert 2 6 25]) →
        a ∉ newAlerts [wAlert 9 7 50] [wAlert 1 7 100, wAlert 2 6 25]) ∧
     (∀ a ∈ latestSubset [wAlert 1 7 100, wAlert 2 6 25],
        a.id_listing ∉ existingIdsFor [wAlert 9 7 50] (maxAlertDate [wAlert 1 7 100, wAlert 2 6 25]) →
        (([wAlert 9 7 50] ++ newAlerts [wAlert 9 7 50] [wAlert 1 7 100, wAlert 2 6 25]).filter
          (fun r => r.id_listing == a.id_listing && r.alert_date == a.alert_date)).length = 1)) :=
  ⟨by decide, c7_save_alerts_dedup_idempotent [wAlert 9 7 50]
    [wAlert 1 7 100, wAlert 2 6 25] (by decide)⟩

/-- C8: when the existing-alerts lookup fails, `save_alerts` recovers
locally — it treats the existing set as empty and inserts the entire
latest-week subset of the batch, returning success rather than propagating
the lookup error. -/
theorem c8_lookup_failure_recovered (table batch : List Alert) :
    save_alerts table batch false InsertOutcome.ok =
      Except.ok (table ++ latestSubset batch) := by
  unfold save_alerts insert_dataframe
  by_cases hb : batch.length = 0
  · rw [if_pos hb]
    have hb' : batch = [] := List.length_eq_zero.mp hb
    subst hb'
    simp [latestSubset]
  · rw [if_neg hb]
    simp

/-- C9: once the dedupe step leaves rows to insert, an insert failure is
fatal to the save step and propagates to the caller, except that a
duplicate-entry (unique-key) violation is tolerated as already present:
`save_alerts` then returns success with the ledger unchanged. -/
theorem c9_insert_failure_propagates (table batch : List Alert)
    (hb : ¬(batch.length = 0)) (hn : ¬((newAlerts table batch).length = 0)) :
    save_alerts table batch true InsertOutcome.fail = Except.error () ∧
    save_alerts table batch false InsertOutcome.fail = Except.error () ∧
    save_alerts table batch true InsertOutcome.dupKey = Except.ok table ∧
    save_alerts table batch false InsertOutcome.dupKey = Except.ok table := by
  unfold save_alerts insert_dataframe
  refine ⟨?_, ?_, ?_, ?_⟩ <;> rw [if_neg hb] <;> simp only [if_true] <;>
    by_cases he : 0 < (table.filter (fun r => r.alert_date == maxAlertDate batch)).length <;>
    simp [he, hn]

/-- Witness for C9 on a concrete ledger and batch. -/
theorem c9_insert_failure_propagates_witness :
    (¬(([wAlert 1 7 100, wAlert 2 6 25] : List Alert).length = 0) ∧
     ¬((newAlerts [wAlert 9 7 50] [wAlert 1 7 100, wAlert 2 6 25]).length = 0)) ∧
    (save_alerts [wAlert 9 7 50] [wAlert 1 7 100, wAlert 2 6 25] true InsertOutcome.fail =
       Except.error () ∧
     save_alerts [wAlert 9 7 50] [wAlert 1 7 100, wAlert 2 6 25] false InsertOutcome.fail =
       Except.error () ∧
     save_alerts [wAlert 9 7 50] [wAlert 1 7 100, wAlert 2 6 25] true InsertOutcome.dupKey =
       Except.ok [wAlert 9 7 50] ∧
     save_alerts [wAlert 9 7 50] [wAlert 1 7 100, wAlert 2 6 25] false InsertOutcome.dupKey =
       Except.ok [wAlert 9 7 50]) :=
  ⟨⟨by decide, by decide⟩,
   c9_insert_failure_propagates [wAlert 9 7 50] [wAlert 1 7 100, wAlert 2 6 25]
     (by decide) (by decide)⟩
